import Mathlib

/-!
# Formal model of the Emotune similarity/recommendation engine

This file embeds the core of `src/recommender/similarity_engine.py` (together with
the thin façade in `src/recommender/recommendation_pipeline.py` and the constants of
`src/recommender/feature_builder.py`) as executable Lean definitions, and proves the
behavioural properties claimed of it.

Modelling decisions:
* A catalog row (`Song`) carries the metadata columns the engine reads: the string
  columns `track_id`, `track_name`, `track_artist`, the optional genre columns
  (`playlist_genre` / `playlist_subgenre`, a pandas NaN cell modelled as `none`),
  the release year extracted from `track_album_release_date`
  (`none` when the date is missing or unparseable), and the nine numeric audio
  features as exact rationals.
* Similarity scores are exact rationals.  The floating-point part of the pipeline —
  `StandardScaler` fitting/transform and `cosine_similarity` against the feature
  matrix `X` — is not re-implemented; it is abstracted as an oracle: the
  track-to-track functions take the vector `sims = cosine_similarity(X[idx], X)[0]`
  as an explicit argument, and the mood function takes an oracle
  `simFn : List ℚ → List ℚ` standing for
  `v ↦ cosine_similarity(_SCALER.transform(v), X)[0]`, applied to the raw prototype
  vector exactly as the code does.  The feature matrix is built from the nine
  `AUDIO_FEATURES` columns only, so the oracle does not read the metadata columns.
* Everything downstream of the cosine-similarity call (filtering, deduplication,
  genre/subgenre boosting, artist-diversity re-ranking, sorting, truncation and
  explanation strings) is translated directly from the Python source.
* The weight `preset` argument only changes the feature matrix the oracle closes
  over, so it does not appear as a separate argument of the embedded functions.
-/

/-- One row of the song catalog (`data/songs.csv` as loaded by
`feature_builder.load_song_data`).  The required metadata columns are plain
strings; the optional genre columns and the parsed release year are `Option`s. -/
structure Song where
  track_id : String
  track_name : String
  track_artist : String
  playlist_genre : Option String
  playlist_subgenre : Option String
  /-- Year of `track_album_release_date` as parsed by
  `pd.to_datetime(..., errors="coerce").dt.year`; `none` when parsing fails. -/
  release_year : Option Int
  danceability : ℚ
  energy : ℚ
  loudness : ℚ
  speechiness : ℚ
  acousticness : ℚ
  instrumentalness : ℚ
  liveness : ℚ
  valence : ℚ
  tempo : ℚ
deriving Repr, DecidableEq

/-- A working row of the engine: a catalog row paired with its current
`similarity` column value. -/
abbrev Row := Song × ℚ

/-- An output record: catalog row, final similarity score, explanation string
(the `preferred_cols` reordering of the returned frame is presentation only). -/
structure RecRow where
  song : Song
  similarity : ℚ
  explanation : String
deriving Repr, DecidableEq

/-- Decidable equality of engine results wrapped in `Except`. -/
instance {e a : Type} [DecidableEq e] [DecidableEq a] :
    DecidableEq (Except e a) := fun x y =>
  match x, y with
  | .error u, .error v =>
      if h : u = v then isTrue (congrArg Except.error h)
      else isFalse fun hc => h (Except.error.inj hc)
  | .ok u, .ok v =>
      if h : u = v then isTrue (congrArg Except.ok h)
      else isFalse fun hc => h (Except.ok.inj hc)
  | .error _, .ok _ => isFalse fun hc => Except.noConfusion hc
  | .ok _, .error _ => isFalse fun hc => Except.noConfusion hc

/-- `feature_builder.AUDIO_FEATURES`: the ordered list of feature columns. -/
def AUDIO_FEATURES : List String :=
  ["danceability", "energy", "loudness", "speechiness", "acousticness",
   "instrumentalness", "liveness", "valence", "tempo"]

-- ------------------------------------------------------------------
-- Sorting by descending similarity (`result.sort_values("similarity",
-- ascending=False)`).  Insertion sort; ties keep their relative order.
-- ------------------------------------------------------------------

/-- Insert a row into a descending-sorted list, after all rows with a
greater-or-equal score. -/
def insertDesc (r : Row) : List Row → List Row
  | [] => [r]
  | x :: xs => if x.2 < r.2 then r :: x :: xs else x :: insertDesc r xs

/-- Sort rows by descending `similarity`. -/
def sortDesc : List Row → List Row
  | [] => []
  | r :: rs => insertDesc r (sortDesc rs)

-- ------------------------------------------------------------------
-- Genre boosting (`_apply_genre_boost`, similarity_engine.py lines 70-96)
-- ------------------------------------------------------------------

/-- `GENRE_BOOST_FACTOR = 1.15` -/
def GENRE_BOOST_FACTOR : ℚ := 115/100

/-- `SUBGENRE_BOOST_FACTOR = 1.10` -/
def SUBGENRE_BOOST_FACTOR : ℚ := 110/100

/-- Python's `str.lower()`: lowercase every character (kernel-reducible
model of `String.toLower`, mapping over the character list directly). -/
def strLower (s : String) : String := ⟨s.data.map Char.toLower⟩

/-- Python's `str.strip()`: drop leading and trailing whitespace. -/
def strTrim (s : String) : String :=
  ⟨((s.data.dropWhile Char.isWhitespace).reverse.dropWhile
      Char.isWhitespace).reverse⟩

/-- Case-insensitive match of an optional genre cell against a reference string
(`result["playlist_genre"].str.lower() == ref_genre.lower()`; a NaN cell
compares unequal). -/
def ciMatch (cell : Option String) (ref : String) : Bool :=
  match cell with
  | none => false
  | some s => strLower s == strLower ref

/-- The same-genre update of one row:
`result.loc[same_genre_mask, "similarity"] *= GENRE_BOOST_FACTOR`. -/
def genreBump (g : String) (r : Row) : Row :=
  if ciMatch r.1.playlist_genre g then (r.1, r.2 * GENRE_BOOST_FACTOR) else r

/-- The same-subgenre update of one row:
`result.loc[same_subgenre_mask, "similarity"] *= SUBGENRE_BOOST_FACTOR`. -/
def subgenreBump (sg : String) (r : Row) : Row :=
  if ciMatch r.1.playlist_subgenre sg then (r.1, r.2 * SUBGENRE_BOOST_FACTOR) else r

/-- `_apply_genre_boost`: multiply the similarity of same-genre rows by
`GENRE_BOOST_FACTOR`, then additionally multiply same-subgenre rows by
`SUBGENRE_BOOST_FACTOR`.  No-op when the reference genre is `None`; the
subgenre pass runs only when the reference subgenre is truthy (a non-empty
string). -/
def applyGenreBoost (result : List Row) (refGenre refSubgenre : Option String) :
    List Row :=
  match refGenre with
  | none => result
  | some g =>
      let boosted := result.map (genreBump g)
      match refSubgenre with
      | none => boosted
      | some sg =>
          if sg.isEmpty then boosted
          else boosted.map (subgenreBump sg)

-- ------------------------------------------------------------------
-- Artist diversity (`_apply_artist_diversity`, lines 102-125)
-- ------------------------------------------------------------------

/-- `MAX_PER_ARTIST = 2` -/
def MAX_PER_ARTIST : ℕ := 2

/-- Number of selected rows by a given artist (`artist_counts`). -/
def countArtist (l : List Row) (a : String) : ℕ :=
  (l.filter fun r => r.1.track_artist == a).length

/-- The selection loop of `_apply_artist_diversity`: walk the rows in order,
keep a row only while its artist has fewer than `MAX_PER_ARTIST` selections,
and stop as soon as `top_k` rows are selected. -/
def diversityGo (top_k : ℕ) : List Row → List Row → List Row
  | [], selected => selected
  | r :: rest, selected =>
      if countArtist selected r.1.track_artist < MAX_PER_ARTIST then
        let selected2 := selected ++ [r]
        if top_k ≤ selected2.length then selected2
        else diversityGo top_k rest selected2
      else diversityGo top_k rest selected

/-- `_apply_artist_diversity`: sort by descending similarity, then greedily
select while capping each artist at `MAX_PER_ARTIST`.  (The `track_artist`
column is always present: it is a required column of the loader.) -/
def applyArtistDiversity (result : List Row) (top_k : ℕ) : List Row :=
  diversityGo top_k (sortDesc result) []

-- ------------------------------------------------------------------
-- Deduplication by track_id
-- (`result.drop_duplicates(subset=["track_id"], keep="first")`,
-- applied after sorting by descending similarity)
-- ------------------------------------------------------------------

/-- Keep the first row of each `track_id`, skipping ids already `seen`. -/
def dedupGo : List Row → List String → List Row
  | [], _ => []
  | r :: rs, seen =>
      if seen.contains r.1.track_id then dedupGo rs seen
      else r :: dedupGo rs (r.1.track_id :: seen)

/-- `drop_duplicates(subset=["track_id"], keep="first")`. -/
def dedupById (l : List Row) : List Row := dedupGo l []

-- ------------------------------------------------------------------
-- Mood prototypes (`MOOD_PROTOTYPES`, lines 140-242)
-- ------------------------------------------------------------------

/-- A mood prototype: normalized targets over the nine audio features. -/
structure MoodProto where
  danceability : ℚ
  energy : ℚ
  loudness : ℚ
  speechiness : ℚ
  acousticness : ℚ
  instrumentalness : ℚ
  liveness : ℚ
  valence : ℚ
  tempo : ℚ
deriving Repr, DecidableEq

/-- `MOOD_PROTOTYPES`, with each value table in `AUDIO_FEATURES` field order. -/
def MOOD_PROTOTYPES : List (String × MoodProto) :=
  [("happy", ⟨70/100, 75/100, 65/100, 10/100, 25/100, 5/100, 20/100, 85/100, 60/100⟩),
   ("sad", ⟨35/100, 30/100, 40/100, 5/100, 70/100, 20/100, 10/100, 20/100, 40/100⟩),
   ("energetic", ⟨80/100, 90/100, 80/100, 15/100, 10/100, 10/100, 30/100, 75/100, 70/100⟩),
   ("calm", ⟨40/100, 25/100, 35/100, 5/100, 75/100, 40/100, 10/100, 55/100, 35/100⟩),
   ("angry", ⟨50/100, 90/100, 85/100, 20/100, 5/100, 5/100, 25/100, 25/100, 65/100⟩),
   ("romantic", ⟨55/100, 45/100, 50/100, 5/100, 60/100, 15/100, 15/100, 75/100, 45/100⟩),
   ("mellow", ⟨50/100, 40/100, 45/100, 5/100, 55/100, 30/100, 12/100, 55/100, 45/100⟩),
   ("focus", ⟨45/100, 35/100, 40/100, 3/100, 50/100, 70/100, 10/100, 50/100, 50/100⟩),
   ("nostalgic", ⟨55/100, 50/100, 50/100, 8/100, 45/100, 15/100, 15/100, 60/100, 50/100⟩)]

/-- The mood names recognised by `MOOD_PROTOTYPES`. -/
def moodKeys : List String := MOOD_PROTOTYPES.map Prod.fst

/-- `mood_key = mood.lower(); if mood_key not in MOOD_PROTOTYPES: mood_key = "calm"`
(lines 282-284). -/
def moodKeyOf (mood : String) : String :=
  if moodKeys.contains (strLower mood) then strLower mood else "calm"

/-- `MOOD_PROTOTYPES[mood_key]` (total because `moodKeyOf` always lands in the
table; the fallback value is never reached). -/
def lookupProto (key : String) : MoodProto :=
  match MOOD_PROTOTYPES.find? (fun p => p.1 == key) with
  | some p => p.2
  | none => ⟨0.40, 0.25, 0.35, 0.05, 0.75, 0.40, 0.10, 0.55, 0.35⟩

/-- The `proto_raw` loop of `get_mood_recommendations` (lines 290-299): the
prototype values in `AUDIO_FEATURES` order with tempo mapped back to BPM
(`v*150+50`) and loudness back to dB (`v*60-60`). -/
def protoRaw (p : MoodProto) : List ℚ :=
  [p.danceability, p.energy, p.loudness * 60 - 60, p.speechiness,
   p.acousticness, p.instrumentalness, p.liveness, p.valence,
   p.tempo * 150 + 50]

-- ------------------------------------------------------------------
-- Explanation strings
-- ------------------------------------------------------------------

/-- Two-decimal fixed-point rendering of a rational, as in Python's
`f"{v:.2f}"` (rounding mode at exact midpoints may differ from CPython's
binary-float rounding; no claim depends on that). -/
def fmt2 (q : ℚ) : String :=
  let sign := if q < 0 then "-" else ""
  let scaled : ℕ := (round (|q| * 100) : ℤ).toNat
  let whole := scaled / 100
  let frac := scaled % 100
  sign ++ toString whole ++ "." ++ (if frac < 10 then "0" else "") ++ toString frac

/-- Percent rendering with no decimals, as in Python's `f"{v:.0%}"`. -/
def pct0 (q : ℚ) : String :=
  let sign := if q < 0 then "-" else ""
  sign ++ toString ((round (|q| * 100) : ℤ).toNat) ++ "%"

/-- The `_explain` closure of `get_mood_recommendations` (lines 341-357):
focus-mood highlights, then a base sentence quoting the caller's original
`mood` argument and the row's valence/energy. -/
def moodExplain (mood moodKey : String) (s : Song) : String :=
  let highlights : List String :=
    if moodKey == "focus" then
      (if 3/10 < s.instrumentalness then
        ["instrumental (" ++ pct0 s.instrumentalness ++ ")"] else []) ++
      (if s.speechiness < 1/10 then ["low vocals"] else [])
    else []
  let base := "Matches \x27" ++ mood ++ "\x27 mood (valence=" ++ fmt2 s.valence ++
    ", energy=" ++ fmt2 s.energy ++ ")"
  if highlights.isEmpty then base
  else base ++ " — " ++ String.intercalate ", " highlights

/-- Truthiness of an optional string cell (Python `if ref_genre and ...`). -/
def truthyStr : Option String → Bool
  | none => false
  | some s => !s.isEmpty

/-- Shared genre sentence of the two track-to-track `_explain` closures. -/
def genreSentence (refGenre : Option String) (s : Song) : String :=
  match refGenre with
  | some g =>
      if !g.isEmpty ∧ truthyStr s.playlist_genre ∧
          ciMatch s.playlist_genre g then
        " Both are in the " ++ g ++ " genre."
      else ""
  | none => ""

/-- `_explain` of `get_similar_songs` (lines 438-447). -/
def similarExplain (refGenre : Option String) (s : Song) : String :=
  "Recommended because it has similar audio characteristics " ++
  "(valence, energy, tempo, etc.) to your chosen track." ++ genreSentence refGenre s

/-- `_explain` of `get_similar_songs_by_name` (lines 542-551). -/
def byNameExplain (matchedName matchedArtist : String) (refGenre : Option String)
    (s : Song) : String :=
  "Similar to \"" ++ matchedName ++ "\" by " ++ matchedArtist ++
  " based on audio features (danceability, energy, valence, tempo, etc.)." ++
  genreSentence refGenre s

-- ------------------------------------------------------------------
-- `get_mood_recommendations` (lines 266-376)
-- ------------------------------------------------------------------

/-- The nostalgic-mood year factor (lines 328-331):
`1.08 if year < 2000 else (1.05 if year < 2010 else 1.0)`, with a missing or
unparseable year (`pd.notna(y)` false) getting factor 1. -/
def yearBoost : Option Int → ℚ
  | some y => if y < 2000 then 108/100 else if y < 2010 then 105/100 else 1
  | none => 1

/-- `get_mood_recommendations(mood, top_k)`.  `simFn v` stands for
`cosine_similarity(_SCALER.transform([v]), X)[0]`: the cosine similarities of
every catalog row against the scaled prototype vector `v`, in catalog order. -/
def get_mood_recommendations (songs : List Song) (simFn : List ℚ → List ℚ)
    (mood : String) (top_k : ℕ) : List RecRow :=
  let mood_key := moodKeyOf mood
  let proto := lookupProto mood_key
  let sims := simFn (protoRaw proto)
  let result : List Row := songs.zip sims
  let result :=
    if mood_key == "nostalgic" then
      result.map fun r => (r.1, r.2 * yearBoost r.1.release_year)
    else result
  let result := (sortDesc result).take top_k
  result.map fun r => ⟨r.1, r.2, moodExplain mood mood_key r.1⟩

-- ------------------------------------------------------------------
-- Track-to-track matching: shared tail of `get_similar_songs` (lines 417-436)
-- and `get_similar_songs_by_name` (lines 521-540)
-- ------------------------------------------------------------------

/-- The candidate rows: every catalog row paired with its similarity, minus the
rows carrying the reference `track_id`. -/
def candidateRows (songs : List Song) (sims : List ℚ) (refId : String) :
    List Row :=
  (songs.zip sims).filter fun r => !(r.1.track_id == refId)

/-- The shared post-processing tail of both track-to-track recommenders:
drop the reference id, deduplicate by `track_id` keeping the highest-similarity
duplicate, optionally genre-boost (and re-sort), then either artist-diversity
select or plain `head(top_k)`. -/
def similarCore (songs : List Song) (sims : List ℚ) (refId : String)
    (refGenre refSubgenre : Option String) (top_k : ℕ)
    (use_genre_boost use_artist_diversity : Bool) : List Row :=
  let result := dedupById (sortDesc (candidateRows songs sims refId))
  let result :=
    if use_genre_boost then sortDesc (applyGenreBoost result refGenre refSubgenre)
    else result
  if use_artist_diversity then applyArtistDiversity result top_k
  else result.take top_k

/-- Typed failures of the engine (`raise KeyError(...)` in the Python source;
the spec names this `NotFoundError`). -/
inductive EngineError where
  | notFound (msg : String)
deriving Repr, DecidableEq

/-- `get_similar_songs(track_id, top_k, preset, use_genre_boost,
use_artist_diversity)` (lines 379-464).  `sims` stands for
`cosine_similarity(X[idx], X)[0]`. -/
def get_similar_songs (songs : List Song) (sims : List ℚ) (track_id : String)
    (top_k : ℕ) (use_genre_boost use_artist_diversity : Bool) :
    Except EngineError (List RecRow) :=
  match songs.find? (fun s => s.track_id == track_id) with
  | none => .error (.notFound ("Unknown track_id: " ++ track_id))
  | some ref =>
      let rows := similarCore songs sims track_id ref.playlist_genre
        ref.playlist_subgenre top_k use_genre_boost use_artist_diversity
      .ok (rows.map fun r => ⟨r.1, r.2, similarExplain ref.playlist_genre r.1⟩)

-- ------------------------------------------------------------------
-- Name lookup of `get_similar_songs_by_name` (lines 491-510)
-- ------------------------------------------------------------------

/-- Index of the first `true` in a boolean mask (`songs.index[mask][0]`). -/
def firstTrueIdx : List Bool → Option ℕ
  | [] => none
  | b :: bs => if b then some 0 else (firstTrueIdx bs).map (· + 1)

/-- Does `needle` occur at the head of `hay`? -/
def leadsWith : List Char → List Char → Bool
  | [], _ => true
  | _ :: _, [] => false
  | a :: as, b :: bs => a == b && leadsWith as bs

/-- Literal substring containment over character lists
(`str.contains(..., regex=False)`). -/
def hasSub (needle : List Char) : List Char → Bool
  | [] => needle.isEmpty
  | c :: cs => leadsWith needle (c :: cs) || hasSub needle cs

/-- The exact-match mask
`songs["track_name"].str.lower().str.strip() == song_name.lower().strip()`. -/
def exactMask (songs : List Song) (q : String) : List Bool :=
  songs.map fun s => strTrim (strLower s.track_name) == q

/-- The fallback mask
`songs["track_name"].str.lower().str.contains(q, na=False, regex=False)`. -/
def containsMask (songs : List Song) (q : String) : List Bool :=
  songs.map fun s => hasSub q.data (strLower s.track_name).data

/-- The reference-row lookup of `get_similar_songs_by_name`: lowercase and
strip the query, try the exact mask, fall back to the contains mask, and take
the first matching row index (`none` when both masks are empty). -/
def findRef (songs : List Song) (song_name : String) : Option ℕ :=
  if (exactMask songs (strTrim (strLower song_name))).any id then
    firstTrueIdx (exactMask songs (strTrim (strLower song_name)))
  else if (containsMask songs (strTrim (strLower song_name))).any id then
    firstTrueIdx (containsMask songs (strTrim (strLower song_name)))
  else none

/-- `get_similar_songs_by_name(song_name, top_k, preset, use_genre_boost,
use_artist_diversity)` (lines 467-568).  On no match it returns the empty
frame; otherwise the pipeline of `similarCore` on the matched reference row.
(The inner `none` branch of `songs.get?` is unreachable: `findRef` only
returns in-range indices.) -/
def get_similar_songs_by_name (songs : List Song) (sims : List ℚ)
    (song_name : String) (top_k : ℕ)
    (use_genre_boost use_artist_diversity : Bool) : List RecRow :=
  match findRef songs song_name with
  | none => []
  | some idx =>
      match songs.get? idx with
      | none => []
      | some ref =>
          let rows := similarCore songs sims ref.track_id ref.playlist_genre
            ref.playlist_subgenre top_k use_genre_boost use_artist_diversity
          rows.map fun r =>
            ⟨r.1, r.2,
             byNameExplain ref.track_name ref.track_artist ref.playlist_genre r.1⟩

-- ------------------------------------------------------------------
-- Pipeline façade (`recommendation_pipeline.py`)
-- ------------------------------------------------------------------

/-- `recommend_by_mood(mood, n)`: pass-through to the engine. -/
def recommend_by_mood (songs : List Song) (simFn : List ℚ → List ℚ)
    (mood : String) (n : ℕ) : List RecRow :=
  get_mood_recommendations songs simFn mood n

/-- `recommend_similar_song(song_id, n, preset, use_genre_boost,
use_artist_diversity)`: pass-through to the engine; an engine failure is
surfaced unchanged (the façade adds no handler). -/
def recommend_similar_song (songs : List Song) (sims : List ℚ) (song_id : String)
    (n : ℕ) (use_genre_boost use_artist_diversity : Bool) :
    Except EngineError (List RecRow) :=
  get_similar_songs songs sims song_id n use_genre_boost use_artist_diversity

/-- `recommend_similar_by_name(song_name, n, ...)`: pass-through. -/
def recommend_similar_by_name (songs : List Song) (sims : List ℚ)
    (song_name : String) (n : ℕ) (use_genre_boost use_artist_diversity : Bool) :
    List RecRow :=
  get_similar_songs_by_name songs sims song_name n use_genre_boost
    use_artist_diversity

-- ------------------------------------------------------------------
-- Spec-side definitions used by the claim statements
-- ------------------------------------------------------------------

/-- Case-insensitive match against an optional reference string: false when
the reference is absent. -/
def ciMatchOpt (cell ref : Option String) : Bool :=
  match ref with
  | none => false
  | some g => ciMatch cell g

/-- Modelled from the spec: the nostalgic release-year factor, "similarity
×1.08 if release year < 2000, ×1.05 if < 2010, else ×1.0". -/
def yearBoostSpec (y : Option Int) : ℚ :=
  match y with
  | some yy => if yy < 2000 then 108/100 else if yy < 2010 then 105/100 else 1
  | none => 1

/-- First index satisfying a predicate. -/
def specFindIdx (p : Song → Bool) : List Song → Option ℕ
  | [] => none
  | s :: ss => if p s then some 0 else (specFindIdx p ss).map (· + 1)

/-- Modelled from the spec: the claimed name-lookup policy — case-insensitive
exact match on track name first; if none, case-insensitive substring
containment; first matching row in table order. -/
def specFindRef (songs : List Song) (song_name : String) : Option ℕ :=
  match specFindIdx
      (fun s => strLower s.track_name == strLower song_name) songs with
  | some i => some i
  | none =>
      specFindIdx
        (fun s => hasSub (strLower song_name).data (strLower s.track_name).data)
        songs

/-- The amended name-lookup policy: the exact pass compares
whitespace-trimmed lowercased names against the trimmed lowercased query, and
the containment pass looks for the trimmed lowercased query inside the
(untrimmed) lowercased names; first matching row in table order. -/
def specFindRefTrim (songs : List Song) (song_name : String) : Option ℕ :=
  match specFindIdx
      (fun s => strTrim (strLower s.track_name) ==
        strTrim (strLower song_name)) songs with
  | some i => some i
  | none =>
      specFindIdx
        (fun s => hasSub (strTrim (strLower song_name)).data
          (strLower s.track_name).data)
        songs

/-- Replace a song's release year, leaving every other column unchanged. -/
def updYear (g : Song → Option Int) (s : Song) : Song :=
  { s with release_year := g s }

/-- Descending-similarity sortedness of an output. -/
def SortedDescRec (l : List RecRow) : Prop :=
  l.Pairwise fun a b => b.similarity ≤ a.similarity

/-- Abbreviation for building test songs: metadata plus a fixed feature row. -/
def mkSong (id name artist : String) (g sg : Option String) (y : Option Int) :
    Song :=
  ⟨id, name, artist, g, sg, y, 50/100, 60/100, 40/100, 5/100, 20/100, 10/100, 10/100, 70/100, 50/100⟩

-- ------------------------------------------------------------------
-- Lemmas: sorting
-- ------------------------------------------------------------------

/-- Rows stay ordered by non-increasing similarity. -/
def SortedDesc (l : List Row) : Prop :=
  l.Pairwise fun a b => b.2 ≤ a.2

theorem insertDesc_perm (r : Row) (l : List Row) :
    List.Perm (insertDesc r l) (r :: l) := by
  induction l with
  | nil => simp [insertDesc]
  | cons x xs ih =>
      simp only [insertDesc]
      split
      · exact List.Perm.refl _
      · exact ((ih.cons x).trans (List.Perm.swap _ _ _))

theorem sortDesc_perm (l : List Row) : List.Perm (sortDesc l) l := by
  induction l with
  | nil => simp [sortDesc]
  | cons r rs ih => exact (insertDesc_perm r (sortDesc rs)).trans (ih.cons r)

theorem insertDesc_sorted (r : Row) (l : List Row) (h : SortedDesc l) :
    SortedDesc (insertDesc r l) := by
  induction l with
  | nil => simp [insertDesc, SortedDesc]
  | cons x xs ih =>
      simp only [insertDesc]
      rcases List.pairwise_cons.mp h with ⟨hx, hxs⟩
      split
      · rename_i hlt
        refine List.pairwise_cons.mpr ⟨?_, h⟩
        intro b hb
        rcases List.mem_cons.mp hb with hb | hb
        · subst hb; exact le_of_lt hlt
        · exact le_trans (hx b hb) (le_of_lt hlt)
      · rename_i hge
        refine List.pairwise_cons.mpr ⟨?_, ih hxs⟩
        intro b hb
        have hmem : b ∈ r :: xs := (insertDesc_perm r xs).mem_iff.mp hb
        rcases List.mem_cons.mp hmem with hb2 | hb2
        · subst hb2; exact le_of_not_lt hge
        · exact hx b hb2

theorem sortDesc_sorted (l : List Row) : SortedDesc (sortDesc l) := by
  induction l with
  | nil => simp [sortDesc, SortedDesc]
  | cons r rs ih => exact insertDesc_sorted r (sortDesc rs) ih

-- ------------------------------------------------------------------
-- Lemmas: deduplication
-- ------------------------------------------------------------------

theorem dedupGo_sublist (l : List Row) (seen : List String) :
    (dedupGo l seen).Sublist l := by
  induction l generalizing seen with
  | nil => simp [dedupGo]
  | cons r rs ih =>
      simp only [dedupGo]
      split
      · exact (ih seen).trans (List.sublist_cons_self r rs)
      · exact (ih (r.1.track_id :: seen)).cons₂ r

theorem dedupGo_id_not_seen (l : List Row) (seen : List String) (r : Row)
    (hr : r ∈ dedupGo l seen) : r.1.track_id ∉ seen := by
  induction l generalizing seen with
  | nil => simp [dedupGo] at hr
  | cons x xs ih =>
      simp only [dedupGo] at hr
      split at hr
      · exact ih seen hr
      · rename_i hxnot
        rcases List.mem_cons.mp hr with h | h
        · subst h
          intro hc
          exact hxnot (List.elem_eq_true_of_mem hc)
        · intro hc
          exact (ih _ h) (List.mem_cons_of_mem _ hc)

theorem dedupGo_nodup (l : List Row) (seen : List String) :
    ((dedupGo l seen).map fun r => r.1.track_id).Nodup := by
  induction l generalizing seen with
  | nil => simp [dedupGo]
  | cons x xs ih =>
      simp only [dedupGo]
      split
      · exact ih seen
      · simp only [List.map_cons, List.nodup_cons]
        refine ⟨?_, ih (x.1.track_id :: seen)⟩
        intro hmem
        rcases List.mem_map.mp hmem with ⟨r, hr, hid⟩
        exact (dedupGo_id_not_seen _ _ _ hr) (by simp [hid])

theorem dedupGo_max (l : List Row) : ∀ (seen : List String), SortedDesc l →
    ∀ r' ∈ dedupGo l seen, ∀ r ∈ l, r.1.track_id = r'.1.track_id →
    r.2 ≤ r'.2 := by
  induction l with
  | nil => intro seen _ r' hr'; simp [dedupGo] at hr'
  | cons x xs ih =>
      intro seen hs r' hr' r hr hid
      rcases List.pairwise_cons.mp hs with ⟨hx, hxs⟩
      simp only [dedupGo] at hr'
      split at hr'
      · rename_i hseen
        rcases List.mem_cons.mp hr with h | h
        · subst h
          exact absurd (hid ▸ List.mem_of_elem_eq_true hseen)
            (dedupGo_id_not_seen _ _ _ hr')
        · exact ih seen hxs r' hr' r h hid
      · rcases List.mem_cons.mp hr' with h' | h'
        · subst h'
          rcases List.mem_cons.mp hr with h | h
          · subst h; exact le_refl _
          · exact hx r h
        · rcases List.mem_cons.mp hr with h | h
          · subst h
            exfalso
            apply dedupGo_id_not_seen _ _ r' h'
            rw [← hid]
            exact List.mem_cons_self _ _
          · exact ih _ hxs r' h' r h hid

theorem dedupById_sublist (l : List Row) : (dedupById l).Sublist l :=
  dedupGo_sublist l []

theorem dedupById_nodup (l : List Row) :
    ((dedupById l).map fun r => r.1.track_id).Nodup :=
  dedupGo_nodup l []

theorem dedupById_max (l : List Row) (hs : SortedDesc l) (r' : Row)
    (hr' : r' ∈ dedupById l) :
    ∀ r ∈ l, r.1.track_id = r'.1.track_id → r.2 ≤ r'.2 :=
  dedupGo_max l [] hs r' hr'

-- ------------------------------------------------------------------
-- Lemmas: artist diversity
-- ------------------------------------------------------------------

theorem countArtist_append (l₁ l₂ : List Row) (a : String) :
    countArtist (l₁ ++ l₂) a = countArtist l₁ a + countArtist l₂ a := by
  simp [countArtist, List.filter_append]

theorem diversityGo_decomp (k : ℕ) (rows selected : List Row) :
    ∃ t, diversityGo k rows selected = selected ++ t ∧ t.Sublist rows := by
  induction rows generalizing selected with
  | nil => exact ⟨[], by simp [diversityGo]⟩
  | cons r rest ih =>
      simp only [diversityGo]
      split
      · split
        · exact ⟨[r], rfl, by simp⟩
        · rcases ih (selected ++ [r]) with ⟨t, ht, hsub⟩
          refine ⟨r :: t, ?_, hsub.cons₂ r⟩
          rw [ht, List.append_assoc]
          rfl
      · rcases ih selected with ⟨t, ht, hsub⟩
        exact ⟨t, ht, hsub.trans (List.sublist_cons_self r rest)⟩

theorem diversityGo_cap (k : ℕ) (rows selected : List Row)
    (hinv : ∀ a, countArtist selected a ≤ MAX_PER_ARTIST) :
    ∀ a, countArtist (diversityGo k rows selected) a ≤ MAX_PER_ARTIST := by
  induction rows generalizing selected with
  | nil => simpa [diversityGo] using hinv
  | cons r rest ih =>
      simp only [diversityGo]
      split
      · rename_i hlt
        have hinv2 : ∀ a, countArtist (selected ++ [r]) a ≤ MAX_PER_ARTIST := by
          intro a
          rw [countArtist_append]
          by_cases hra : r.1.track_artist = a
          · have hone : countArtist [r] a = 1 := by
              simp [countArtist, hra]
            rw [hra] at hlt
            omega
          · have hzero : countArtist [r] a = 0 := by
              simp [countArtist, hra]
            have hd := hinv a
            omega
        split
        · exact hinv2
        · exact ih _ hinv2
      · exact ih _ hinv

theorem applyArtistDiversity_cap (l : List Row) (k : ℕ) :
    ∀ a, countArtist (applyArtistDiversity l k) a ≤ MAX_PER_ARTIST := by
  intro a
  exact diversityGo_cap k (sortDesc l) [] (by intro b; simp [countArtist]) a

theorem applyArtistDiversity_sublist (l : List Row) (k : ℕ) :
    (applyArtistDiversity l k).Sublist (sortDesc l) := by
  rcases diversityGo_decomp k (sortDesc l) [] with ⟨t, ht, hsub⟩
  simpa [applyArtistDiversity, ht] using hsub

-- ------------------------------------------------------------------
-- Lemmas: genre boost
-- ------------------------------------------------------------------

theorem one_le_genre_factor : (1 : ℚ) ≤ GENRE_BOOST_FACTOR := by
  norm_num [GENRE_BOOST_FACTOR]

theorem one_le_subgenre_factor : (1 : ℚ) ≤ SUBGENRE_BOOST_FACTOR := by
  norm_num [SUBGENRE_BOOST_FACTOR]

theorem genreBump_fst (g : String) (r : Row) : (genreBump g r).1 = r.1 := by
  unfold genreBump; split <;> rfl

theorem subgenreBump_fst (sg : String) (r : Row) :
    (subgenreBump sg r).1 = r.1 := by
  unfold subgenreBump; split <;> rfl

theorem genreBump_snd_le (g : String) (r : Row) (h0 : 0 ≤ r.2) :
    r.2 ≤ (genreBump g r).2 := by
  unfold genreBump
  split
  · exact le_mul_of_one_le_right h0 one_le_genre_factor
  · exact le_refl _

theorem genreBump_snd_nonneg (g : String) (r : Row) (h0 : 0 ≤ r.2) :
    0 ≤ (genreBump g r).2 :=
  le_trans h0 (genreBump_snd_le g r h0)

theorem subgenreBump_snd_le (sg : String) (r : Row) (h0 : 0 ≤ r.2) :
    r.2 ≤ (subgenreBump sg r).2 := by
  unfold subgenreBump
  split
  · exact le_mul_of_one_le_right h0 one_le_subgenre_factor
  · exact le_refl _

theorem genreBump_no_match (g : String) (r : Row)
    (hm : ciMatch r.1.playlist_genre g = false) : genreBump g r = r := by
  unfold genreBump
  rw [hm]
  simp

theorem subgenreBump_no_match (sg : String) (r : Row)
    (hm : ciMatch r.1.playlist_subgenre sg = false) : subgenreBump sg r = r := by
  unfold subgenreBump
  rw [hm]
  simp

theorem applyGenreBoost_none (l : List Row) (rsg : Option String) :
    applyGenreBoost l none rsg = l := rfl

theorem applyGenreBoost_some_none (l : List Row) (g : String) :
    applyGenreBoost l (some g) none = l.map (genreBump g) := rfl

theorem applyGenreBoost_some_some (l : List Row) (g sg : String) :
    applyGenreBoost l (some g) (some sg) =
      if sg.isEmpty then l.map (genreBump g)
      else (l.map (genreBump g)).map (subgenreBump sg) := rfl

theorem map_fst_of_fst_preserving (f : Row → Row) (hf : ∀ r, (f r).1 = r.1)
    (m : List Row) : (m.map f).map Prod.fst = m.map Prod.fst := by
  rw [List.map_map]
  exact List.map_congr_left fun r _ => hf r

theorem applyGenreBoost_pointwise (l : List Row) (rg rsg : Option String) :
    List.Forall₂ (fun r r' : Row =>
      r'.1 = r.1
      ∧ (0 ≤ r.2 → ciMatchOpt r.1.playlist_genre rg = true → r.2 ≤ r'.2)
      ∧ (ciMatchOpt r.1.playlist_genre rg = false →
          ciMatchOpt r.1.playlist_subgenre rsg = false → r'.2 = r.2))
      l (applyGenreBoost l rg rsg) := by
  cases rg with
  | none =>
      rw [applyGenreBoost_none]
      refine List.forall₂_same.mpr fun r _ => ⟨rfl, ?_, fun _ _ => rfl⟩
      intro _ hm
      simp [ciMatchOpt] at hm
  | some g =>
      have hone : List.Forall₂ (fun r r' : Row =>
          r'.1 = r.1
          ∧ (0 ≤ r.2 → ciMatchOpt r.1.playlist_genre (some g) = true →
              r.2 ≤ r'.2)
          ∧ (ciMatchOpt r.1.playlist_genre (some g) = false →
              ciMatchOpt r.1.playlist_subgenre rsg = false → r'.2 = r.2))
          l (l.map (genreBump g)) := by
        rw [List.forall₂_map_right_iff]
        refine List.forall₂_same.mpr fun r _ => ⟨genreBump_fst g r, ?_, ?_⟩
        · intro h0 _
          exact genreBump_snd_le g r h0
        · intro hm _
          simp only [ciMatchOpt] at hm
          rw [genreBump_no_match g r hm]
      cases rsg with
      | none => rw [applyGenreBoost_some_none]; exact hone
      | some sg =>
          rw [applyGenreBoost_some_some]
          split
          · exact hone
          · rw [List.map_map, List.forall₂_map_right_iff]
            refine List.forall₂_same.mpr fun r _ =>
              ⟨?_, ?_, ?_⟩ <;> simp only [Function.comp_apply]
            · rw [subgenreBump_fst, genreBump_fst]
            · intro h0 _
              calc r.2 ≤ (genreBump g r).2 := genreBump_snd_le g r h0
                _ ≤ (subgenreBump sg (genreBump g r)).2 :=
                  subgenreBump_snd_le sg _ (genreBump_snd_nonneg g r h0)
            · intro hm hsm
              simp only [ciMatchOpt] at hm hsm
              rw [genreBump_no_match g r hm, subgenreBump_no_match sg r hsm]

theorem applyGenreBoost_mem (l : List Row) (rg rsg : Option String) (r' : Row)
    (h : r' ∈ applyGenreBoost l rg rsg) : ∃ r ∈ l, r'.1 = r.1 := by
  cases rg with
  | none =>
      rw [applyGenreBoost_none] at h
      exact ⟨r', h, rfl⟩
  | some g =>
      cases rsg with
      | none =>
          rw [applyGenreBoost_some_none] at h
          rcases List.mem_map.mp h with ⟨r, hr, hfr⟩
          exact ⟨r, hr, hfr ▸ genreBump_fst g r⟩
      | some sg =>
          rw [applyGenreBoost_some_some] at h
          split at h
          · rcases List.mem_map.mp h with ⟨r, hr, hfr⟩
            exact ⟨r, hr, hfr ▸ genreBump_fst g r⟩
          · rw [List.map_map] at h
            rcases List.mem_map.mp h with ⟨r, hr, hfr⟩
            refine ⟨r, hr, ?_⟩
            rw [← hfr]
            simp only [Function.comp_apply]
            rw [subgenreBump_fst, genreBump_fst]

theorem applyGenreBoost_map_fst (l : List Row) (rg rsg : Option String) :
    (applyGenreBoost l rg rsg).map Prod.fst = l.map Prod.fst := by
  cases rg with
  | none => rw [applyGenreBoost_none]
  | some g =>
      cases rsg with
      | none =>
          rw [applyGenreBoost_some_none]
          exact map_fst_of_fst_preserving _ (genreBump_fst g) l
      | some sg =>
          rw [applyGenreBoost_some_some]
          split
          · exact map_fst_of_fst_preserving _ (genreBump_fst g) l
          · rw [map_fst_of_fst_preserving _ (subgenreBump_fst sg),
              map_fst_of_fst_preserving _ (genreBump_fst g)]

-- ------------------------------------------------------------------
-- Lemmas: pipeline plumbing
-- ------------------------------------------------------------------

theorem zip_map_fst_sublist (l1 : List Song) (l2 : List ℚ) :
    ((l1.zip l2).map Prod.fst).Sublist l1 := by
  induction l1 generalizing l2 with
  | nil => simp
  | cons s ss ih =>
      cases l2 with
      | nil => simp
      | cons q qs => simpa using (ih qs).cons₂ s

theorem candidateRows_mem (songs : List Song) (sims : List ℚ) (refId : String)
    (r : Row) (hr : r ∈ candidateRows songs sims refId) :
    r ∈ songs.zip sims ∧ r.1.track_id ≠ refId := by
  rcases List.mem_filter.mp hr with ⟨hz, hid⟩
  refine ⟨hz, ?_⟩
  intro hc
  simp [hc] at hid

theorem dedupCand_mem (songs : List Song) (sims : List ℚ) (refId : String)
    (r₀ : Row) (h : r₀ ∈ dedupById (sortDesc (candidateRows songs sims refId))) :
    r₀ ∈ candidateRows songs sims refId :=
  (sortDesc_perm _).mem_iff.mp ((dedupById_sublist _).subset h)

theorem dedupCand_max (songs : List Song) (sims : List ℚ) (refId : String)
    (r₀ : Row) (h : r₀ ∈ dedupById (sortDesc (candidateRows songs sims refId))) :
    ∀ p ∈ candidateRows songs sims refId,
      p.1.track_id = r₀.1.track_id → p.2 ≤ r₀.2 := by
  intro p hp hid
  exact dedupById_max _ (sortDesc_sorted _) r₀ h p
    ((sortDesc_perm _).mem_iff.mpr hp) hid

theorem similarCore_mem (songs : List Song) (sims : List ℚ) (refId : String)
    (rg rsg : Option String) (k : ℕ) (gb ad : Bool) (r : Row)
    (hr : r ∈ similarCore songs sims refId rg rsg k gb ad) :
    ∃ r₀ ∈ dedupById (sortDesc (candidateRows songs sims refId)), r.1 = r₀.1 := by
  unfold similarCore at hr
  set D := dedupById (sortDesc (candidateRows songs sims refId)) with hD
  set rows1 := if gb then sortDesc (applyGenreBoost D rg rsg) else D with hrows1
  have hr1 : r ∈ rows1 := by
    cases ad with
    | true =>
        simp only [if_true] at hr
        have hsub := (applyArtistDiversity_sublist rows1 k).subset hr
        exact (sortDesc_perm rows1).mem_iff.mp hsub
    | false =>
        simp only [Bool.false_eq_true, if_false] at hr
        exact List.take_subset k rows1 hr
  cases gb with
  | true =>
      simp only [if_true] at hrows1
      rw [hrows1] at hr1
      have hb : r ∈ applyGenreBoost D rg rsg := (sortDesc_perm _).mem_iff.mp hr1
      exact applyGenreBoost_mem D rg rsg r hb
  | false =>
      simp only [Bool.false_eq_true, if_false] at hrows1
      rw [hrows1] at hr1
      exact ⟨r, hr1, rfl⟩

theorem ids_eq_map_fst (l : List Row) :
    (l.map fun r => r.1.track_id) = (l.map Prod.fst).map Song.track_id := by
  rw [List.map_map]
  rfl

theorem similarCore_ids_nodup (songs : List Song) (sims : List ℚ) (refId : String)
    (rg rsg : Option String) (k : ℕ) (gb ad : Bool) :
    ((similarCore songs sims refId rg rsg k gb ad).map
      fun r => r.1.track_id).Nodup := by
  unfold similarCore
  set D := dedupById (sortDesc (candidateRows songs sims refId)) with hD
  have hDnodup : (D.map fun r => r.1.track_id).Nodup := dedupById_nodup _
  set rows1 := if gb then sortDesc (applyGenreBoost D rg rsg) else D with hrows1
  have h1 : (rows1.map fun r => r.1.track_id).Nodup := by
    cases gb with
    | true =>
        simp only [if_true] at hrows1
        rw [hrows1]
        have hB : ((applyGenreBoost D rg rsg).map fun r => r.1.track_id).Nodup := by
          rw [ids_eq_map_fst, applyGenreBoost_map_fst, ← ids_eq_map_fst]
          exact hDnodup
        exact (((sortDesc_perm _).map fun r => r.1.track_id).nodup_iff).mpr hB
    | false =>
        simp only [Bool.false_eq_true, if_false] at hrows1
        rw [hrows1]
        exact hDnodup
  cases ad with
  | true =>
      simp only [if_true]
      have hsub : (applyArtistDiversity rows1 k).Sublist (sortDesc rows1) :=
        applyArtistDiversity_sublist rows1 k
      have hsorted_nodup : ((sortDesc rows1).map fun r => r.1.track_id).Nodup :=
        (((sortDesc_perm rows1).map fun r => r.1.track_id).nodup_iff).mpr h1
      exact hsorted_nodup.sublist (hsub.map _)
  | false =>
      simp only [Bool.false_eq_true, if_false]
      exact h1.sublist ((List.take_sublist k rows1).map _)

-- ------------------------------------------------------------------
-- Lemmas: mood pipeline
-- ------------------------------------------------------------------

theorem yearBoost_eq_spec (y : Option Int) : yearBoost y = yearBoostSpec y := by
  cases y <;> rfl

theorem sortDesc_length (l : List Row) : (sortDesc l).length = l.length :=
  (sortDesc_perm l).length_eq

theorem insertDesc_map_snd (h : Row → Row) (hh : ∀ x, (h x).2 = x.2) (r : Row)
    (l : List Row) : insertDesc (h r) (l.map h) = (insertDesc r l).map h := by
  induction l with
  | nil => simp [insertDesc]
  | cons x xs ih =>
      simp only [List.map_cons, insertDesc, hh]
      split
      · simp
      · simp only [List.map_cons, List.cons.injEq, true_and]
        exact ih

theorem sortDesc_map_snd (h : Row → Row) (hh : ∀ x, (h x).2 = x.2)
    (l : List Row) : sortDesc (l.map h) = (sortDesc l).map h := by
  induction l with
  | nil => simp [sortDesc]
  | cons r rs ih =>
      simp only [List.map_cons, sortDesc, ih]
      exact insertDesc_map_snd h hh r (sortDesc rs)

theorem charToNat_ofNat_valid (m : Nat) (h : m.isValidChar) :
    (Char.ofNat m).toNat = m := by
  rw [Char.ofNat, dif_pos h]
  rfl

theorem char_toLower_idem (c : Char) : c.toLower.toLower = c.toLower := by
  unfold Char.toLower
  by_cases h : c.toNat ≥ 65 ∧ c.toNat ≤ 90
  · rw [if_pos h]
    have hv : (c.toNat + 32).isValidChar := by
      left
      omega
    have ht : (Char.ofNat (c.toNat + 32)).toNat = c.toNat + 32 :=
      charToNat_ofNat_valid _ hv
    rw [if_neg]
    rw [ht]
    omega
  · rw [if_neg h, if_neg h]

theorem strLower_idem (s : String) : strLower (strLower s) = strLower s := by
  unfold strLower
  refine congrArg String.mk ?_
  show (s.data.map Char.toLower).map Char.toLower = s.data.map Char.toLower
  rw [List.map_map]
  exact List.map_congr_left fun c _ => char_toLower_idem c

theorem moodKeyOf_strLower (mood : String) :
    moodKeyOf (strLower mood) = moodKeyOf mood := by
  unfold moodKeyOf
  rw [strLower_idem]

theorem get_mood_eq_def (songs : List Song) (simFn : List ℚ → List ℚ)
    (mood : String) (k : ℕ) :
    get_mood_recommendations songs simFn mood k =
      ((sortDesc (if moodKeyOf mood == "nostalgic" then
          (songs.zip (simFn (protoRaw (lookupProto (moodKeyOf mood))))).map
            (fun r => (r.1, r.2 * yearBoost r.1.release_year))
        else songs.zip (simFn (protoRaw (lookupProto (moodKeyOf mood)))))).take
          k).map
        fun r => ⟨r.1, r.2, moodExplain mood (moodKeyOf mood) r.1⟩ := rfl

-- ------------------------------------------------------------------
-- Lemmas: name lookup
-- ------------------------------------------------------------------

theorem firstTrueIdx_map (p : Song → Bool) (l : List Song) :
    firstTrueIdx (l.map p) = specFindIdx p l := by
  induction l with
  | nil => rfl
  | cons s ss ih =>
      simp only [List.map_cons, firstTrueIdx, specFindIdx]
      split <;> simp [ih]

theorem specFindIdx_eq_none_iff (p : Song → Bool) (l : List Song) :
    specFindIdx p l = none ↔ l.any p = false := by
  induction l with
  | nil => simp [specFindIdx]
  | cons s ss ih =>
      simp only [specFindIdx, List.any_cons]
      by_cases hp : p s
      · simp [hp]
      · simp only [eq_false_of_ne_true hp, if_neg, Bool.false_or]
        rw [← ih]
        cases specFindIdx p ss <;> simp

theorem mask_any_eq (p : Song → Bool) (l : List Song) :
    (l.map p).any id = l.any p := by
  induction l with
  | nil => rfl
  | cons s ss ih => simp only [List.map_cons, List.any_cons, ih, id]

theorem findRef_eq_specTrim (songs : List Song) (name : String) :
    findRef songs name = specFindRefTrim songs name := by
  unfold findRef specFindRefTrim exactMask containsMask
  by_cases he : songs.any (fun s => strTrim (strLower s.track_name) ==
      strTrim (strLower name)) = true
  · rw [if_pos (by rwa [mask_any_eq]), firstTrueIdx_map]
    cases hsp : specFindIdx (fun s => strTrim (strLower s.track_name) ==
        strTrim (strLower name)) songs with
    | none =>
        rw [(specFindIdx_eq_none_iff _ _).mp hsp] at he
        cases he
    | some i => rfl
  · have he' : songs.any (fun s => strTrim (strLower s.track_name) ==
        strTrim (strLower name)) = false := eq_false_of_ne_true he
    rw [if_neg (by rw [mask_any_eq]; exact he), (specFindIdx_eq_none_iff _ _).mpr he']
    by_cases hc : songs.any (fun s => hasSub (strTrim (strLower name)).data
        (strLower s.track_name).data) = true
    · rw [if_pos (by rwa [mask_any_eq]), firstTrueIdx_map]
    · have hc' := eq_false_of_ne_true hc
      rw [if_neg (by rw [mask_any_eq]; exact hc),
        (specFindIdx_eq_none_iff _ _).mpr hc']

-- ------------------------------------------------------------------
-- Claim theorems
-- ------------------------------------------------------------------

/-- Claim C5: for every track identifier absent from the catalog,
`recommend_similar_by_id` (the façade over `get_similar_songs`) fails with the
typed not-found failure (`raise KeyError(f"Unknown track_id: ...")`), surfaced
to the caller unchanged rather than silently defaulted. -/
theorem unknown_id_fails_not_found (songs : List Song) (sims : List ℚ)
    (track_id : String) (k : ℕ) (gb ad : Bool)
    (habsent : ∀ s ∈ songs, s.track_id ≠ track_id) :
    recommend_similar_song songs sims track_id k gb ad =
      .error (.notFound ("Unknown track_id: " ++ track_id)) := by
  unfold recommend_similar_song get_similar_songs
  have hf : songs.find? (fun s => s.track_id == track_id) = none := by
    rw [List.find?_eq_none]
    intro s hs
    simp [habsent s hs]
  rw [hf]

/-- Witness for C5: the spec's own example identifier `"no-such-id-000"` on a
small concrete catalog. -/
theorem unknown_id_fails_not_found_witness :
    recommend_similar_song [mkSong "t1" "A" "X" none none none] [1]
        "no-such-id-000" 10 true true =
      .error (.notFound ("Unknown track_id: " ++ "no-such-id-000")) :=
  unknown_id_fails_not_found _ _ _ _ _ _ (by decide)

/-- Counterexample to claim C6 as stated: the query `"Abc "` has no
case-insensitive exact match and no case-insensitive substring match in the
catalog `["abc", "other"]`, yet `get_similar_songs_by_name` returns a
non-empty result, because the code also strips whitespace in its exact-match
pass. -/
theorem unmatched_name_claim_counterexample :
    (∀ s ∈ [mkSong "t1" "abc" "X" none none none,
            mkSong "t2" "other" "Y" none none none],
      (strLower s.track_name == strLower "Abc ") = false ∧
      hasSub (strLower "Abc ").data (strLower s.track_name).data = false)
    ∧ get_similar_songs_by_name
        [mkSong "t1" "abc" "X" none none none,
         mkSong "t2" "other" "Y" none none none]
        [1, 1/2] "Abc " 10 true true ≠ [] := by
  decide

/-- Claim C6 (amended): for every name query whose lowercased, trimmed form
neither equals any track's lowercased trimmed name nor occurs as a substring
of any track's lowercased name, `get_similar_songs_by_name` returns an empty
result (and, being a total function, never fails). -/
theorem unmatched_name_empty (songs : List Song) (sims : List ℚ)
    (name : String) (k : ℕ) (gb ad : Bool)
    (h : ∀ s ∈ songs,
      (strTrim (strLower s.track_name) == strTrim (strLower name)) = false ∧
      hasSub (strTrim (strLower name)).data (strLower s.track_name).data =
        false) :
    get_similar_songs_by_name songs sims name k gb ad = [] := by
  have hnone : findRef songs name = none := by
    unfold findRef exactMask containsMask
    have he : songs.any (fun s => strTrim (strLower s.track_name) ==
        strTrim (strLower name)) = false := by
      rw [List.any_eq_false]
      intro s hs
      simp [(h s hs).1]
    have hc : songs.any (fun s => hasSub (strTrim (strLower name)).data
        (strLower s.track_name).data) = false := by
      rw [List.any_eq_false]
      intro s hs
      simp [(h s hs).2]
    rw [if_neg (by rw [mask_any_eq]; simp [he]),
      if_neg (by rw [mask_any_eq]; simp [hc])]
  unfold get_similar_songs_by_name
  rw [hnone]

/-- Witness for C6 (amended): the spec's own example query
`"zzz_not_a_real_song_zzz"`. -/
theorem unmatched_name_empty_witness :
    get_similar_songs_by_name
        [mkSong "t1" "abc" "X" none none none,
         mkSong "t2" "other" "Y" none none none]
        [1, 1/2] "zzz_not_a_real_song_zzz" 10 true true = [] :=
  unmatched_name_empty _ _ _ _ _ _ (by decide)

/-- Counterexample to claim C9 as stated: for the query `"abc"` on the catalog
`["xabcx", "abc "]`, the claimed policy (case-insensitive exact first, then
substring, first row in table order) picks row 0 (`"xabcx"`, a substring
match, as there is no untrimmed exact match), but the code picks row 1
(`"abc "`), because its exact-match pass also strips whitespace. -/
theorem name_lookup_policy_counterexample :
    findRef [mkSong "t1" "xabcx" "X" none none none,
             mkSong "t2" "abc " "X" none none none] "abc" = some 1
    ∧ specFindRef [mkSong "t1" "xabcx" "X" none none none,
             mkSong "t2" "abc " "X" none none none] "abc" = some 0
    ∧ (some 1 : Option ℕ) ≠ some 0 := by
  decide

/-- Claim C9 (amended): the reference-row lookup of
`get_similar_songs_by_name` resolves by whitespace-trimmed case-insensitive
exact match on track name first; if none, by case-insensitive substring
containment of the trimmed query; and when multiple rows match, the first
matching row in catalog table order is chosen. -/
theorem name_lookup_policy (songs : List Song) (name : String) :
    findRef songs name = specFindRefTrim songs name :=
  findRef_eq_specTrim songs name

theorem similarCore_ad_true (songs : List Song) (sims : List ℚ) (refId : String)
    (rg rsg : Option String) (k : ℕ) (gb : Bool) :
    similarCore songs sims refId rg rsg k gb true =
      applyArtistDiversity
        (if gb then
          sortDesc (applyGenreBoost
            (dedupById (sortDesc (candidateRows songs sims refId))) rg rsg)
        else dedupById (sortDesc (candidateRows songs sims refId))) k := rfl

theorem filter_length_map_rec (f : Row → RecRow) (p : RecRow → Bool)
    (l : List Row) :
    ((l.map f).filter p).length = (l.filter fun r => p (f r)).length := by
  induction l with
  | nil => rfl
  | cons x xs ih =>
      simp only [List.map_cons, List.filter_cons]
      by_cases h : p (f x) <;> simp [h, ih]

/-- Claim C3: for every track identifier present in the catalog,
`get_similar_songs` never returns a row carrying the reference identifier,
returns pairwise-distinct identifiers, and every returned row's underlying
catalog row is a highest-raw-similarity representative of its identifier
(duplicates are dropped keeping the highest-scoring one). -/
theorem similar_by_id_excludes_and_dedups (songs : List Song) (sims : List ℚ)
    (track_id : String) (k : ℕ) (gb ad : Bool) (out : List RecRow)
    (h : get_similar_songs songs sims track_id k gb ad = .ok out) :
    (∀ r ∈ out, r.song.track_id ≠ track_id)
    ∧ ((out.map fun r => r.song.track_id).Nodup)
    ∧ ∀ r ∈ out, ∃ q : ℚ, (r.song, q) ∈ songs.zip sims ∧
        ∀ p ∈ songs.zip sims, p.1.track_id = r.song.track_id → p.2 ≤ q := by
  unfold get_similar_songs at h
  cases hf : songs.find? (fun s => s.track_id == track_id) with
  | none =>
      rw [hf] at h
      simp at h
  | some ref =>
      rw [hf] at h
      have hout : out = (similarCore songs sims track_id ref.playlist_genre
          ref.playlist_subgenre k gb ad).map
            (fun r => ⟨r.1, r.2, similarExplain ref.playlist_genre r.1⟩) := by
        injection h with h2
        exact h2.symm
      subst hout
      refine ⟨?_, ?_, ?_⟩
      · intro r hr
        rcases List.mem_map.mp hr with ⟨row, hrow, hrr⟩
        rcases similarCore_mem _ _ _ _ _ _ _ _ row hrow with ⟨r₀, hr₀, hfst⟩
        have hne := (candidateRows_mem _ _ _ _
          (dedupCand_mem _ _ _ _ hr₀)).2
        rw [← hrr]
        show row.1.track_id ≠ track_id
        rw [hfst]
        exact hne
      · rw [List.map_map]
        exact similarCore_ids_nodup songs sims track_id ref.playlist_genre
          ref.playlist_subgenre k gb ad
      · intro r hr
        rcases List.mem_map.mp hr with ⟨row, hrow, hrr⟩
        rcases similarCore_mem _ _ _ _ _ _ _ _ row hrow with ⟨r₀, hr₀, hfst⟩
        have hcand := dedupCand_mem _ _ _ _ hr₀
        have hmax := dedupCand_max _ _ _ _ hr₀
        have hzip := (candidateRows_mem _ _ _ _ hcand).1
        have hne := (candidateRows_mem _ _ _ _ hcand).2
        refine ⟨r₀.2, ?_, ?_⟩
        · rw [← hrr]
          show (row.1, r₀.2) ∈ songs.zip sims
          rw [hfst]
          simpa using hzip
        · intro p hp hid
          have hid' : p.1.track_id = r₀.1.track_id := by
            rw [hid, ← hrr]
            show row.1.track_id = r₀.1.track_id
            rw [hfst]
          have hpc : p ∈ candidateRows songs sims track_id := by
            apply List.mem_filter.mpr
            refine ⟨hp, ?_⟩
            have hpne : p.1.track_id ≠ track_id := by
              rw [hid']
              exact hne
            simp [hpne]
          exact hmax p hpc hid'

/-- Witness for C3: a catalog where the identifier `"dup"` appears twice, once
with a higher raw similarity; the reference row is excluded, ids are unique,
and the kept `"dup"` row dominates both zipped `"dup"` entries. -/
theorem similar_by_id_excludes_and_dedups_witness :
    (∀ r ∈ [RecRow.mk (mkSong "dup" "D2" "Y" none none none) (3/4)
        (similarExplain none (mkSong "dup" "D2" "Y" none none none)),
      RecRow.mk (mkSong "c" "C" "Z" none none none) (1/4)
        (similarExplain none (mkSong "c" "C" "Z" none none none))],
      r.song.track_id ≠ "r")
    ∧ (([RecRow.mk (mkSong "dup" "D2" "Y" none none none) (3/4)
        (similarExplain none (mkSong "dup" "D2" "Y" none none none)),
      RecRow.mk (mkSong "c" "C" "Z" none none none) (1/4)
        (similarExplain none (mkSong "c" "C" "Z" none none none))].map
          fun r => r.song.track_id).Nodup)
    ∧ ∀ r ∈ [RecRow.mk (mkSong "dup" "D2" "Y" none none none) (3/4)
        (similarExplain none (mkSong "dup" "D2" "Y" none none none)),
      RecRow.mk (mkSong "c" "C" "Z" none none none) (1/4)
        (similarExplain none (mkSong "c" "C" "Z" none none none))],
      ∃ q : ℚ,
        (r.song, q) ∈ [mkSong "r" "R" "X" none none none,
          mkSong "dup" "D1" "Y" none none none,
          mkSong "dup" "D2" "Y" none none none,
          mkSong "c" "C" "Z" none none none].zip [1, 1/2, 3/4, 1/4] ∧
        ∀ p ∈ [mkSong "r" "R" "X" none none none,
          mkSong "dup" "D1" "Y" none none none,
          mkSong "dup" "D2" "Y" none none none,
          mkSong "c" "C" "Z" none none none].zip [1, 1/2, 3/4, 1/4],
          p.1.track_id = r.song.track_id → p.2 ≤ q :=
  similar_by_id_excludes_and_dedups
    [mkSong "r" "R" "X" none none none,
     mkSong "dup" "D1" "Y" none none none,
     mkSong "dup" "D2" "Y" none none none,
     mkSong "c" "C" "Z" none none none]
    [1, 1/2, 3/4, 1/4] "r" 10 false false _ (by with_unfolding_all decide)

theorem similarCore_cap (songs : List Song) (sims : List ℚ) (refId : String)
    (rg rsg : Option String) (k : ℕ) (gb : Bool) (a : String) :
    countArtist (similarCore songs sims refId rg rsg k gb true) a ≤
      MAX_PER_ARTIST := by
  rw [similarCore_ad_true]
  exact applyArtistDiversity_cap _ k a

/-- Claim C4: with `use_artist_diversity=true`, no artist appears more than
`MAX_PER_ARTIST = 2` times among the rows returned by either track-to-track
recommender. -/
theorem artist_diversity_capped :
    (∀ (songs : List Song) (sims : List ℚ) (track_id : String) (k : ℕ)
      (gb : Bool) (out : List RecRow),
      get_similar_songs songs sims track_id k gb true = .ok out →
      ∀ a, (out.filter fun r => r.song.track_artist == a).length ≤
        MAX_PER_ARTIST)
    ∧ ∀ (songs : List Song) (sims : List ℚ) (name : String) (k : ℕ)
      (gb : Bool) (a : String),
      ((get_similar_songs_by_name songs sims name k gb true).filter
        fun r => r.song.track_artist == a).length ≤ MAX_PER_ARTIST := by
  constructor
  · intro songs sims track_id k gb out h a
    unfold get_similar_songs at h
    cases hf : songs.find? (fun s => s.track_id == track_id) with
    | none =>
        rw [hf] at h
        simp at h
    | some ref =>
        rw [hf] at h
        have hout : out = (similarCore songs sims track_id ref.playlist_genre
            ref.playlist_subgenre k gb true).map
              (fun r => ⟨r.1, r.2, similarExplain ref.playlist_genre r.1⟩) := by
          injection h with h2
          exact h2.symm
        subst hout
        rw [filter_length_map_rec]
        exact similarCore_cap songs sims track_id ref.playlist_genre
          ref.playlist_subgenre k gb a
  · intro songs sims name k gb a
    unfold get_similar_songs_by_name
    cases hf : findRef songs name with
    | none =>
        simp only [hf, List.filter_nil, List.length_nil]
        exact Nat.zero_le _
    | some idx =>
        simp only [hf]
        cases hg : songs.get? idx with
        | none =>
            simp only [List.filter_nil, List.length_nil]
            exact Nat.zero_le _
        | some ref =>
            rw [filter_length_map_rec]
            exact similarCore_cap songs sims ref.track_id ref.playlist_genre
              ref.playlist_subgenre k gb a

/-- Witness for C4: three candidate tracks by the same artist `"X"`; only two
survive the diversity pass. -/
theorem artist_diversity_capped_witness :
    ([RecRow.mk (mkSong "s1" "S1" "X" none none none) (3/4)
        (similarExplain none (mkSong "s1" "S1" "X" none none none)),
      RecRow.mk (mkSong "s2" "S2" "X" none none none) (1/2)
        (similarExplain none (mkSong "s2" "S2" "X" none none none))].filter
          fun r => r.song.track_artist == "X").length ≤ MAX_PER_ARTIST :=
  artist_diversity_capped.1
    [mkSong "r" "R" "RA" none none none,
     mkSong "s1" "S1" "X" none none none,
     mkSong "s2" "S2" "X" none none none,
     mkSong "s3" "S3" "X" none none none]
    [1, 3/4, 1/2, 1/4] "r" 10 false _ (by with_unfolding_all decide) "X"

/-- Counterexample to claim C1 as stated: with reference genre `"rock"` /
subgenre `"classic rock"`, candidate `"a"` (same genre, negative raw
similarity −1/2) drops to −23/40 under the boost — the boost *decreases* a
same-genre score when the raw cosine similarity is negative — and candidate
`"b"` (different genre `"pop"` but same subgenre) changes from 1/2 to 11/20 —
a different-genre candidate's score is *not* unchanged, because the subgenre
pass does not require a genre match. -/
theorem genre_boost_claim_counterexample :
    ((get_similar_songs
        [mkSong "r" "Ref" "RA" (some "rock") (some "classic rock") none,
         mkSong "a" "SongA" "AA" (some "rock") (some "x") none,
         mkSong "b" "SongB" "BA" (some "pop") (some "classic rock") none]
        [1, -(1/2), 1/2] "r" 10 true false).map
          (List.map fun r => (r.song.track_id, r.similarity)) =
      .ok [("b", 11/20), ("a", -(23/40))])
    ∧ ((get_similar_songs
        [mkSong "r" "Ref" "RA" (some "rock") (some "classic rock") none,
         mkSong "a" "SongA" "AA" (some "rock") (some "x") none,
         mkSong "b" "SongB" "BA" (some "pop") (some "classic rock") none]
        [1, -(1/2), 1/2] "r" 10 false false).map
          (List.map fun r => (r.song.track_id, r.similarity)) =
      .ok [("b", 1/2), ("a", -(1/2))])
    ∧ ciMatch (some "rock") "rock" = true
    ∧ ciMatch (some "pop") "rock" = false
    ∧ (-(23/40) : ℚ) < -(1/2)
    ∧ ((11/20 : ℚ) ≠ 1/2) := by
  with_unfolding_all decide

/-- Claim C1 (amended): for a fixed candidate set, the genre-boost stage keeps
each row's song; it never decreases the score of a same-genre candidate whose
incoming score is non-negative; and it leaves unchanged the score of a
candidate that matches neither the reference genre nor the reference subgenre
(case-insensitively). -/
theorem genre_boost_monotone_amended (l : List Row) (rg rsg : Option String) :
    List.Forall₂ (fun r r' : Row =>
      r'.1 = r.1
      ∧ (0 ≤ r.2 → ciMatchOpt r.1.playlist_genre rg = true → r.2 ≤ r'.2)
      ∧ (ciMatchOpt r.1.playlist_genre rg = false →
          ciMatchOpt r.1.playlist_subgenre rsg = false → r'.2 = r.2))
      l (applyGenreBoost l rg rsg) :=
  applyGenreBoost_pointwise l rg rsg

/-- Witness for C1 (amended), at a one-row candidate list. -/
theorem genre_boost_monotone_amended_witness :
    List.Forall₂ (fun r r' : Row =>
      r'.1 = r.1
      ∧ (0 ≤ r.2 → ciMatchOpt r.1.playlist_genre (some "rock") = true →
          r.2 ≤ r'.2)
      ∧ (ciMatchOpt r.1.playlist_genre (some "rock") = false →
          ciMatchOpt r.1.playlist_subgenre (some "classic rock") = false →
          r'.2 = r.2))
      [(mkSong "a" "SongA" "AA" (some "rock") (some "x") none, 1)]
      (applyGenreBoost
        [(mkSong "a" "SongA" "AA" (some "rock") (some "x") none, 1)]
        (some "rock") (some "classic rock")) :=
  genre_boost_monotone_amended
    [(mkSong "a" "SongA" "AA" (some "rock") (some "x") none, 1)]
    (some "rock") (some "classic rock")

theorem zip_ids_nodup (songs : List Song) (sims : List ℚ)
    (hn : (songs.map Song.track_id).Nodup) :
    ((songs.zip sims).map fun r => r.1.track_id).Nodup := by
  rw [ids_eq_map_fst]
  exact hn.sublist ((zip_map_fst_sublist songs sims).map _)

/-- Counterexample to claim C2 as stated: a catalog in which the identifier
`"t1"` appears on two rows.  `get_mood_recommendations` does not deduplicate,
so the supported mood `"happy"` returns the identifier twice. -/
theorem mood_dup_ids_counterexample :
    ((get_mood_recommendations
        [mkSong "t1" "N1" "X" none none none,
         mkSong "t1" "N2" "X" none none none]
        (fun _ => [1/2, 1/4]) "happy" 5).map fun r => r.song.track_id) =
      ["t1", "t1"]
    ∧ ¬ (((get_mood_recommendations
        [mkSong "t1" "N1" "X" none none none,
         mkSong "t1" "N2" "X" none none none]
        (fun _ => [1/2, 1/4]) "happy" 5).map fun r => r.song.track_id).Nodup)
    ∧ "happy" ∈ moodKeys := by
  with_unfolding_all decide

/-- Claim C2 (amended): for every mood and count, `get_mood_recommendations`
returns at most `count` rows sorted by descending similarity; the returned
identifiers are pairwise distinct provided the catalog's identifiers are
(the mood path performs no deduplication of its own). -/
theorem mood_recs_shape (songs : List Song) (simFn : List ℚ → List ℚ)
    (mood : String) (k : ℕ) :
    (get_mood_recommendations songs simFn mood k).length ≤ k
    ∧ SortedDescRec (get_mood_recommendations songs simFn mood k)
    ∧ ((songs.map Song.track_id).Nodup →
        ((get_mood_recommendations songs simFn mood k).map
          fun r => r.song.track_id).Nodup) := by
  rw [get_mood_eq_def]
  refine ⟨?_, ?_, ?_⟩
  · rw [List.length_map, List.length_take]
    exact min_le_left _ _
  · unfold SortedDescRec
    rw [List.pairwise_map]
    exact List.Pairwise.sublist (List.take_sublist _ _) (sortDesc_sorted _)
  · intro hn
    rw [List.map_map]
    have hbase : ((songs.zip (simFn (protoRaw
        (lookupProto (moodKeyOf mood))))).map fun r => r.1.track_id).Nodup :=
      zip_ids_nodup _ _ hn
    have hrows : ((if moodKeyOf mood == "nostalgic" then
        (songs.zip (simFn (protoRaw (lookupProto (moodKeyOf mood))))).map
          (fun r => (r.1, r.2 * yearBoost r.1.release_year))
        else songs.zip (simFn (protoRaw
          (lookupProto (moodKeyOf mood))))).map fun r => r.1.track_id).Nodup := by
      split
      · rw [ids_eq_map_fst,
          map_fst_of_fst_preserving
            (fun r => (r.1, r.2 * yearBoost r.1.release_year)) (fun r => rfl),
          ← ids_eq_map_fst]
        exact hbase
      · exact hbase
    exact ((((sortDesc_perm _).map fun r => r.1.track_id).nodup_iff).mpr
      hrows).sublist ((List.take_sublist _ _).map _)

/-- Witness for C2 (amended) at a concrete catalog and mood. -/
theorem mood_recs_shape_witness :
    (get_mood_recommendations [mkSong "t1" "N1" "X" none none none]
        (fun _ => [1]) "happy" 3).length ≤ 3
    ∧ SortedDescRec (get_mood_recommendations
        [mkSong "t1" "N1" "X" none none none] (fun _ => [1]) "happy" 3)
    ∧ (([mkSong "t1" "N1" "X" none none none].map Song.track_id).Nodup →
        ((get_mood_recommendations [mkSong "t1" "N1" "X" none none none]
          (fun _ => [1]) "happy" 3).map fun r => r.song.track_id).Nodup) :=
  mood_recs_shape [mkSong "t1" "N1" "X" none none none] (fun _ => [1])
    "happy" 3

/-- Counterexample to claim C7 as stated: for the unrecognised mood `"party"`,
the result is *not* the result for the default mood — the two outputs differ
in their explanation strings (which quote the caller's spelling) — and for
`count = 0` the result is empty. -/
theorem mood_fallback_claim_counterexample :
    strLower "party" ∉ moodKeys
    ∧ get_mood_recommendations [mkSong "t1" "N1" "X" none none none]
        (fun _ => [1/2]) "party" 1 ≠
      get_mood_recommendations [mkSong "t1" "N1" "X" none none none]
        (fun _ => [1/2]) "calm" 1
    ∧ get_mood_recommendations [mkSong "t1" "N1" "X" none none none]
        (fun _ => [1/2]) "party" 0 = [] := by
  with_unfolding_all decide

/-- Claim C7 (amended): for every mood whose lowercase form is not a prototype
key, `get_mood_recommendations` does not fail; it falls back to `"calm"` and
returns the same tracks with the same similarity scores in the same order as
it would for `"calm"` with the same count, only the explanation echoing the
caller's original mood string; and the result is non-empty whenever the
oracle is catalog-length, the catalog is non-empty and `count ≥ 1`. -/
theorem mood_fallback_amended (songs : List Song) (simFn : List ℚ → List ℚ)
    (mood : String) (k : ℕ) (h : strLower mood ∉ moodKeys) :
    get_mood_recommendations songs simFn mood k =
      (get_mood_recommendations songs simFn "calm" k).map
        (fun r => ⟨r.song, r.similarity, moodExplain mood "calm" r.song⟩)
    ∧ ((simFn (protoRaw (lookupProto "calm"))).length = songs.length →
        songs ≠ [] → 1 ≤ k →
        get_mood_recommendations songs simFn mood k ≠ []) := by
  have hkey : moodKeyOf mood = "calm" := by
    unfold moodKeyOf
    rw [if_neg]
    intro hc
    exact h (List.mem_of_elem_eq_true hc)
  have hcalm : moodKeyOf "calm" = "calm" := by decide
  constructor
  · rw [get_mood_eq_def, get_mood_eq_def, hkey, hcalm, List.map_map]
    rfl
  · intro hlen hne hk
    rw [get_mood_eq_def, hkey]
    apply List.ne_nil_of_length_pos
    rw [List.length_map, List.length_take]
    have h1 : (sortDesc (if ("calm" : String) == "nostalgic" then
        (songs.zip (simFn (protoRaw (lookupProto "calm")))).map
          (fun r => (r.1, r.2 * yearBoost r.1.release_year))
        else songs.zip (simFn (protoRaw (lookupProto "calm"))))).length =
        songs.length := by
      rw [sortDesc_length]
      have : (("calm" : String) == "nostalgic") = false := by decide
      rw [this]
      simp only [Bool.false_eq_true, if_false]
      rw [List.length_zip, hlen, Nat.min_self]
    rw [h1]
    have h0 : 0 < songs.length := List.length_pos.mpr hne
    omega

/-- Witness for C7 (amended): the unrecognised mood `"party"` on a one-song
catalog with `count = 1`. -/
theorem mood_fallback_amended_witness :
    get_mood_recommendations [mkSong "t1" "N1" "X" none none none]
        (fun _ => [1]) "party" 1 =
      (get_mood_recommendations [mkSong "t1" "N1" "X" none none none]
        (fun _ => [1]) "calm" 1).map
          (fun r => ⟨r.song, r.similarity, moodExplain "party" "calm" r.song⟩)
    ∧ get_mood_recommendations [mkSong "t1" "N1" "X" none none none]
        (fun _ => [1]) "party" 1 ≠ [] :=
  ⟨(mood_fallback_amended [mkSong "t1" "N1" "X" none none none]
      (fun _ => [1]) "party" 1 (by decide)).1,
   (mood_fallback_amended [mkSong "t1" "N1" "X" none none none]
      (fun _ => [1]) "party" 1 (by decide)).2 (by decide) (by decide)
      (by decide)⟩

/-- Claim C10: mood lookup is case-insensitive — the recommendations for
`mood` are exactly those for the lowercased mood, with the same songs, scores
and order; only the explanation string echoes the caller's original
spelling. -/
theorem mood_lookup_case_insensitive (songs : List Song)
    (simFn : List ℚ → List ℚ) (mood : String) (k : ℕ) :
    get_mood_recommendations songs simFn mood k =
      (get_mood_recommendations songs simFn (strLower mood) k).map
        fun r => ⟨r.song, r.similarity, moodExplain mood (moodKeyOf mood) r.song⟩ := by
  rw [get_mood_eq_def, get_mood_eq_def, moodKeyOf_strLower, List.map_map]
  rfl

/-- Claim C8: `get_mood_recommendations` applies the release-year boost only
when the mood resolves to `"nostalgic"`: every nostalgic output row's score is
a raw cosine similarity multiplied by the spec factor (1.08 if the year is
before 2000, 1.05 if before 2010, else 1.0); for every other mood each output
score is a raw similarity taken unchanged, and changing the catalog's release
years changes nothing in the output but the stored year fields themselves. -/
theorem nostalgic_year_boost (songs : List Song) (simFn : List ℚ → List ℚ)
    (mood : String) (k : ℕ) :
    (moodKeyOf mood = "nostalgic" →
      ∀ r ∈ get_mood_recommendations songs simFn mood k,
        ∃ p ∈ songs.zip (simFn (protoRaw (lookupProto "nostalgic"))),
          r.song = p.1 ∧ r.similarity = p.2 * yearBoostSpec p.1.release_year)
    ∧ (moodKeyOf mood ≠ "nostalgic" →
        (∀ r ∈ get_mood_recommendations songs simFn mood k,
          (r.song, r.similarity) ∈
            songs.zip (simFn (protoRaw (lookupProto (moodKeyOf mood)))))
        ∧ ∀ g : Song → Option Int,
            get_mood_recommendations (songs.map (updYear g)) simFn mood k =
              (get_mood_recommendations songs simFn mood k).map
                fun r => ⟨updYear g r.song, r.similarity, r.explanation⟩) := by
  constructor
  · intro hkey r hr
    rw [get_mood_eq_def, hkey] at hr
    rw [if_pos (show (("nostalgic" : String) == "nostalgic") = true from rfl)]
      at hr
    rcases List.mem_map.mp hr with ⟨row, hrow, hrr⟩
    have hrow2 : row ∈ (songs.zip (simFn (protoRaw
        (lookupProto "nostalgic")))).map
          (fun r => (r.1, r.2 * yearBoost r.1.release_year)) :=
      (sortDesc_perm _).mem_iff.mp (List.take_subset _ _ hrow)
    rcases List.mem_map.mp hrow2 with ⟨p, hp, hyb⟩
    refine ⟨p, hp, ?_, ?_⟩
    · rw [← hrr, ← hyb]
    · rw [← hrr, ← hyb, ← yearBoost_eq_spec]
  · intro hkey
    have hbeq : (moodKeyOf mood == "nostalgic") = false :=
      beq_eq_false_iff_ne.mpr hkey
    constructor
    · intro r hr
      rw [get_mood_eq_def] at hr
      rw [hbeq] at hr
      simp only [Bool.false_eq_true, if_false] at hr
      rcases List.mem_map.mp hr with ⟨row, hrow, hrr⟩
      have hrow2 : row ∈ songs.zip (simFn (protoRaw
          (lookupProto (moodKeyOf mood)))) :=
        (sortDesc_perm _).mem_iff.mp (List.take_subset _ _ hrow)
      rw [← hrr]
      show (row.1, row.2) ∈ _
      simpa using hrow2
    · intro g
      rw [get_mood_eq_def, get_mood_eq_def]
      rw [hbeq]
      simp only [Bool.false_eq_true, if_false]
      rw [List.zip_map_left,
        sortDesc_map_snd (Prod.map (updYear g) id) (fun x => rfl),
        ← List.map_take, List.map_map, List.map_map]
      rfl

set_option maxRecDepth 4000 in
/-- Witness for C8: one catalog row with release year 1995; the nostalgic
score is the raw similarity 1/2 multiplied by 1.08. -/
theorem nostalgic_year_boost_witness :
    ∃ p ∈ [mkSong "y1" "Old" "X" none none (some 1995)].zip
        ((fun _ => [(1 : ℚ)/2]) (protoRaw (lookupProto "nostalgic"))),
      (RecRow.mk (mkSong "y1" "Old" "X" none none (some 1995)) (27/50)
        (moodExplain "nostalgic" "nostalgic"
          (mkSong "y1" "Old" "X" none none (some 1995)))).song = p.1
      ∧ (RecRow.mk (mkSong "y1" "Old" "X" none none (some 1995)) (27/50)
        (moodExplain "nostalgic" "nostalgic"
          (mkSong "y1" "Old" "X" none none (some 1995)))).similarity =
        p.2 * yearBoostSpec p.1.release_year :=
  (nostalgic_year_boost [mkSong "y1" "Old" "X" none none (some 1995)]
    (fun _ => [(1 : ℚ)/2]) "nostalgic" 1).1 (by decide) _
    (by with_unfolding_all decide)
